import Mathlib

/-!
Shallow embedding of the configuration-resolution and streaming-control core of
the Kurokesu AR0822 V4L2 sensor driver (src/ar0822.c).

Registers are addressed by `Nat`; control and register values are `Int`
(the driver's control values are s32, register values fit in u16).  Register
I/O is modelled by a fault oracle: the n-th attempted write either succeeds
or fails with a given error code, and each operation returns the kernel-style
`Int` return code together with the list of writes actually performed.
External collaborators (the CCI transport, the v4l2 control framework,
runtime PM) are embedded only as far as the driver observes them: the
framework clamps a set value into the control's range, `modify_range`
re-clamps the current value, and the PM usage count is a plain counter.
-/

set_option linter.unusedVariables false

/-! ## Constants from the driver header block -/

def AR0822_PIXEL_RATE : Nat := 160000000
def AR0822_VBLANK_STEP : Int := 8
def AR0822_VTS_MAX : Nat := 0xFFFF
def AR0822_EXPOSURE_MIN : Int := 4
def AR0822_EXPOSURE_STEP : Int := 1
def AR0822_EXPOSURE_DEFAULT : Int := 0x0640
def AR0822_ANA_GAIN_MIN : Int := 0
def AR0822_ANA_GAIN_MAX : Int := 119
def AR0822_TEST_PATTERN_COLOR_MIN : Int := 0
def AR0822_TEST_PATTERN_COLOR_MAX : Int := 0xFFF
def AR0822_FLL_4K_MIN : Nat := 2184

def AR0822_MODE_SELECT_STREAM_OFF : Int := 0x00
def AR0822_MODE_SELECT_STREAM_ON : Int := 0x01

/-- Linux media bus format code for 10-bit SGRBG Bayer. -/
def MEDIA_BUS_FMT_SGRBG10_1X10 : Nat := 0x300a
/-- Linux media bus format code for 12-bit SGRBG Bayer. -/
def MEDIA_BUS_FMT_SGRBG12_1X12 : Nat := 0x3010

/-! ## Register addresses used by the modelled operations -/

def AR0822_REG_FRAME_LENGTH_LINES : Nat := 0x300A
def AR0822_REG_COARSE_INTEGRATION_TIME : Nat := 0x3012
def AR0822_REG_MODE_SELECT : Nat := 0x301C
def AR0822_REG_IMAGE_ORIENTATION : Nat := 0x301D
def AR0822_REG_SENSOR_GAIN : Nat := 0x5900
def AR0822_REG_TEST_PATTERN_MODE : Nat := 0x3070
def AR0822_REG_TEST_DATA_RED : Nat := 0x3072
def AR0822_REG_TEST_DATA_GREENR : Nat := 0x3074
def AR0822_REG_TEST_DATA_BLUE : Nat := 0x3076
def AR0822_REG_TEST_DATA_GREENB : Nat := 0x3078
def AR0822_REG_VT_PIX_CLK_DIV : Nat := 0x302A
def AR0822_REG_VT_SYS_CLK_DIV : Nat := 0x302C
def AR0822_REG_PRE_PLL_CLK_DIV : Nat := 0x302E
def AR0822_REG_PLL_MULTIPLIER : Nat := 0x3030
def AR0822_REG_OP_WORD_CLK_DIV : Nat := 0x3036
def AR0822_REG_OP_SYS_CLK_DIV : Nat := 0x3038
def AR0822_REG_X_ADDR_START : Nat := 0x3004
def AR0822_REG_X_ADDR_END : Nat := 0x3008
def AR0822_REG_Y_ADDR_START : Nat := 0x3002
def AR0822_REG_Y_ADDR_END : Nat := 0x3006
def AR0822_REG_X_ODD_INC : Nat := 0x30A2
def AR0822_REG_Y_ODD_INC : Nat := 0x30A6
def AR0822_REG_X_OUTPUT_CONTROL : Nat := 0x3402
def AR0822_REG_Y_OUTPUT_CONTROL : Nat := 0x3404
def AR0822_REG_OPERATION_MODE_CTRL : Nat := 0x3082
def AR0822_REG_DIGITAL_CTRL : Nat := 0x30BA
def AR0822_REG_SERIAL_FORMAT : Nat := 0x31AE
def AR0822_REG_DATA_FORMAT_BITS : Nat := 0x31AC
def AR0822_REG_LINE_LENGTH_PCK : Nat := 0x300C
def AR0822_REG_FRAME_PREAMBLE : Nat := 0x31B0
def AR0822_REG_LINE_PREAMBLE : Nat := 0x31B2
def AR0822_REG_MIPI_TIMING_0 : Nat := 0x31B4
def AR0822_REG_MIPI_TIMING_1 : Nat := 0x31B6
def AR0822_REG_MIPI_TIMING_2 : Nat := 0x31B8
def AR0822_REG_MIPI_TIMING_3 : Nat := 0x31BA
def AR0822_REG_MIPI_TIMING_4 : Nat := 0x31BC
def AR0822_REG_MIPI_DESKEW_PAT_WIDTH : Nat := 0x31C8
def AR0822_REG_MIPI_PER_DESKEW_PAT_WIDTH : Nat := 0x5930
def AR0822_REG_MIPI_F1_PDT : Nat := 0x3342

/-- Kernel error code -EINVAL. -/
def EINVAL_ERR : Int := -22
/-- Kernel error code -ENOENT. -/
def ENOENT_ERR : Int := -2

/-! ## Data model (struct ar0822_timing, formats, PLL configs) -/

/-- One register write: (address, value).  Mirrors `struct cci_reg_sequence`. -/
abbrev RegWrite := Nat × Int

/-- `struct ar0822_timing`. -/
structure ar0822_timing where
  line_length_pck_min : Nat
  frame_length_lines_min : Nat
deriving DecidableEq

/-- `enum ar0822_lane_mode_id`. -/
inductive ar0822_lane_mode_id where
  | l2
  | l4
deriving DecidableEq

/-- Array index of a lane mode (AR0822_LANE_MODE_ID_2 = 0, _4 = 1). -/
def ar0822_lane_mode_id.idx : ar0822_lane_mode_id → Nat
  | .l2 => 0
  | .l4 => 1

/-- `enum ar0822_bit_depth_id`. -/
inductive ar0822_bit_depth_id where
  | b10
  | b12
deriving DecidableEq

/-- Array index of a bit depth (AR0822_BIT_DEPTH_ID_10BIT = 0, _12BIT = 1). -/
def ar0822_bit_depth_id.idx : ar0822_bit_depth_id → Nat
  | .b10 => 0
  | .b12 => 1

/-- `struct ar0822_format`.  The per-(lane mode, bit depth) timing array is a
2 x 2 list-of-lists indexed as in the C array. -/
structure ar0822_format where
  width : Nat
  height : Nat
  crop_left : Nat
  crop_top : Nat
  crop_width : Nat
  crop_height : Nat
  timing : List (List ar0822_timing)
  reg_sequence : List RegWrite
deriving DecidableEq

/-- Lookup of `format->timing[lane_mode][bit_depth]`. -/
def ar0822_format.timingAt (f : ar0822_format) (lm : ar0822_lane_mode_id)
    (bd : ar0822_bit_depth_id) : ar0822_timing :=
  (f.timing.getD lm.idx []).getD bd.idx ⟨0, 0⟩

/-- `struct ar0822_pll_config`.  The link/extclk frequencies are stored by
value (the C code stores pointers into parallel constant arrays). -/
structure ar0822_pll_config where
  freq_link : Int
  freq_extclk : Nat
  pixel_rate : Nat
  formats : List ar0822_format
  regs_pll : List RegWrite
  regs_mipi_10bit : List RegWrite
  regs_mipi_12bit : List RegWrite
deriving DecidableEq

/-- Lookup of `pll_config->regs_mipi[bit_depth]`. -/
def ar0822_pll_config.regsMipi (c : ar0822_pll_config) :
    ar0822_bit_depth_id → List RegWrite
  | .b10 => c.regs_mipi_10bit
  | .b12 => c.regs_mipi_12bit

/-! ## Static register tables (verbatim from src/ar0822.c) -/

def ar0822_pll_config_24_480 : List RegWrite :=
  [(AR0822_REG_PLL_MULTIPLIER, 0x0050),
   (AR0822_REG_PRE_PLL_CLK_DIV, 0x0001),
   (AR0822_REG_VT_SYS_CLK_DIV, 0x0002),
   (AR0822_REG_VT_PIX_CLK_DIV, 0x0006),
   (AR0822_REG_OP_SYS_CLK_DIV, 0x0004)]

def ar0822_pll_config_24_960 : List RegWrite :=
  [(AR0822_REG_PLL_MULTIPLIER, 0x0050),
   (AR0822_REG_PRE_PLL_CLK_DIV, 0x0001),
   (AR0822_REG_VT_SYS_CLK_DIV, 0x0002),
   (AR0822_REG_VT_PIX_CLK_DIV, 0x0006),
   (AR0822_REG_OP_SYS_CLK_DIV, 0x0002)]

def ar0822_1080p_config : List RegWrite :=
  [(AR0822_REG_X_ADDR_START, 968),
   (AR0822_REG_X_ADDR_END, 2887),
   (AR0822_REG_Y_ADDR_START, 548),
   (AR0822_REG_Y_ADDR_END, 1627),
   (AR0822_REG_X_ODD_INC, 0x0001),
   (AR0822_REG_Y_ODD_INC, 0x0001),
   (AR0822_REG_X_OUTPUT_CONTROL, 1920),
   (AR0822_REG_Y_OUTPUT_CONTROL, 1080)]

def ar0822_4k_config : List RegWrite :=
  [(AR0822_REG_X_ADDR_START, 8),
   (AR0822_REG_X_ADDR_END, 3847),
   (AR0822_REG_Y_ADDR_START, 8),
   (AR0822_REG_Y_ADDR_END, 2167),
   (AR0822_REG_X_ODD_INC, 0x0001),
   (AR0822_REG_Y_ODD_INC, 0x0001),
   (AR0822_REG_X_OUTPUT_CONTROL, 3840),
   (AR0822_REG_Y_OUTPUT_CONTROL, 2160)]

def ar0822_mipi_timing_24_480_10bit : List RegWrite :=
  [(AR0822_REG_FRAME_PREAMBLE, 0x007D),
   (AR0822_REG_LINE_PREAMBLE, 0x0054),
   (AR0822_REG_MIPI_TIMING_0, 0x6249),
   (AR0822_REG_MIPI_TIMING_1, 0x52C9),
   (AR0822_REG_MIPI_TIMING_2, 0x80CB),
   (AR0822_REG_MIPI_TIMING_3, 0x030C),
   (AR0822_REG_MIPI_TIMING_4, 0x0E8A),
   (AR0822_REG_MIPI_DESKEW_PAT_WIDTH, 0x0AF7),
   (AR0822_REG_MIPI_PER_DESKEW_PAT_WIDTH, 0x00B5),
   (AR0822_REG_MIPI_F1_PDT, 0x122B)]

def ar0822_mipi_timing_24_480_12bit : List RegWrite :=
  [(AR0822_REG_FRAME_PREAMBLE, 0x006C),
   (AR0822_REG_LINE_PREAMBLE, 0x004A),
   (AR0822_REG_MIPI_TIMING_0, 0x51C8),
   (AR0822_REG_MIPI_TIMING_1, 0x5248),
   (AR0822_REG_MIPI_TIMING_2, 0x70CA),
   (AR0822_REG_MIPI_TIMING_3, 0x028A),
   (AR0822_REG_MIPI_TIMING_4, 0x0C08),
   (AR0822_REG_MIPI_DESKEW_PAT_WIDTH, 0x0AEC),
   (AR0822_REG_MIPI_PER_DESKEW_PAT_WIDTH, 0x00A7),
   (AR0822_REG_MIPI_F1_PDT, 0x122C)]

def ar0822_mipi_timing_24_960_10bit : List RegWrite :=
  [(AR0822_REG_FRAME_PREAMBLE, 0x00D9),
   (AR0822_REG_LINE_PREAMBLE, 0x008D),
   (AR0822_REG_MIPI_TIMING_0, 0xA3D0),
   (AR0822_REG_MIPI_TIMING_1, 0x9553),
   (AR0822_REG_MIPI_TIMING_2, 0xF0D1),
   (AR0822_REG_MIPI_TIMING_3, 0x0598),
   (AR0822_REG_MIPI_TIMING_4, 0x1D13),
   (AR0822_REG_MIPI_DESKEW_PAT_WIDTH, 0x0B3A),
   (AR0822_REG_MIPI_PER_DESKEW_PAT_WIDTH, 0x0107),
   (AR0822_REG_MIPI_F1_PDT, 0x122B)]

def ar0822_mipi_timing_24_960_12bit : List RegWrite :=
  [(AR0822_REG_FRAME_PREAMBLE, 0x00B8),
   (AR0822_REG_LINE_PREAMBLE, 0x0079),
   (AR0822_REG_MIPI_TIMING_0, 0x830E),
   (AR0822_REG_MIPI_TIMING_1, 0x8451),
   (AR0822_REG_MIPI_TIMING_2, 0xD0CE),
   (AR0822_REG_MIPI_TIMING_3, 0x0494),
   (AR0822_REG_MIPI_TIMING_4, 0x1810),
   (AR0822_REG_MIPI_DESKEW_PAT_WIDTH, 0x0B23),
   (AR0822_REG_MIPI_PER_DESKEW_PAT_WIDTH, 0x00EB),
   (AR0822_REG_MIPI_F1_PDT, 0x122C)]

def ar0822_regs_common : List RegWrite :=
  [(AR0822_REG_OPERATION_MODE_CTRL, 0x0001),
   (AR0822_REG_DIGITAL_CTRL, 0x0024)]

/-- `ar0822_formats_24_480`: catalog of formats for the 24 MHz / 480 Mbps
config (index 0 = 1920x1080, index 1 = 3840x2160). -/
def ar0822_formats_24_480 : List ar0822_format :=
  [{ width := 1920, height := 1080,
     crop_left := 0, crop_top := 0, crop_width := 1920, crop_height := 1080,
     timing := [[⟨1812, 1464⟩, ⟨2142, 1240⟩],
                [⟨1012, 2632⟩, ⟨1180, 2248⟩]],
     reg_sequence := ar0822_1080p_config },
   { width := 3840, height := 2160,
     crop_left := 0, crop_top := 0, crop_width := 3840, crop_height := 2160,
     timing := [[⟨3412, AR0822_FLL_4K_MIN⟩, ⟨4062, AR0822_FLL_4K_MIN⟩],
                [⟨1812, AR0822_FLL_4K_MIN⟩, ⟨2140, AR0822_FLL_4K_MIN⟩]],
     reg_sequence := ar0822_4k_config }]

/-- `ar0822_formats_24_960`: catalog of formats for the 24 MHz / 960 Mbps
config (index 0 = 1920x1080, index 1 = 3840x2160). -/
def ar0822_formats_24_960 : List ar0822_format :=
  [{ width := 1920, height := 1080,
     crop_left := 0, crop_top := 0, crop_width := 1920, crop_height := 1080,
     timing := [[⟨982, 2712⟩, ⟨1146, 2320⟩],
                [⟨792, 3360⟩, ⟨792, 3360⟩]],
     reg_sequence := ar0822_1080p_config },
   { width := 3840, height := 2160,
     crop_left := 0, crop_top := 0, crop_width := 3840, crop_height := 2160,
     timing := [[⟨1782, AR0822_FLL_4K_MIN⟩, ⟨2106, AR0822_FLL_4K_MIN⟩],
                [⟨1220, AR0822_FLL_4K_MIN⟩, ⟨1146, AR0822_FLL_4K_MIN⟩]],
     reg_sequence := ar0822_4k_config }]

/-- PLL config catalog entry for EXTCLK 24 MHz, link 480 Mbps. -/
def ar0822_pll_cfg_24_480 : ar0822_pll_config :=
  { freq_link := 480000000,
    freq_extclk := 24000000,
    pixel_rate := AR0822_PIXEL_RATE,
    formats := ar0822_formats_24_480,
    regs_pll := ar0822_pll_config_24_480,
    regs_mipi_10bit := ar0822_mipi_timing_24_480_10bit,
    regs_mipi_12bit := ar0822_mipi_timing_24_480_12bit }

/-- PLL config catalog entry for EXTCLK 24 MHz, link 960 Mbps. -/
def ar0822_pll_cfg_24_960 : ar0822_pll_config :=
  { freq_link := 960000000,
    freq_extclk := 24000000,
    pixel_rate := AR0822_PIXEL_RATE,
    formats := ar0822_formats_24_960,
    regs_pll := ar0822_pll_config_24_960,
    regs_mipi_10bit := ar0822_mipi_timing_24_960_10bit,
    regs_mipi_12bit := ar0822_mipi_timing_24_960_12bit }

/-- `ar0822_pll_configs`: the static ClockLinkConfig catalog. -/
def ar0822_pll_configs : List ar0822_pll_config :=
  [ar0822_pll_cfg_24_480, ar0822_pll_cfg_24_960]

/-- `ar0822_format_codes`: media bus code per bit depth id. -/
def ar0822_format_codes : List Nat :=
  [MEDIA_BUS_FMT_SGRBG10_1X10, MEDIA_BUS_FMT_SGRBG12_1X12]

/-- `ar0822_test_pattern_val`: menu index to register value. -/
def ar0822_test_pattern_val : List Int :=
  [0, 1, 2, 3, 4, 256]

/-! ## Register transport and v4l2 control framework model -/

/-- Fault oracle for the CCI transport: `fl n = some e` makes the n-th
attempted register write of an operation fail with error code `e`. -/
abbrev Oracle := Nat → Option Int

/-- Write-attempt counter together with the log of performed writes. -/
abbrev WState := Nat × List RegWrite

/-- `cci_write`: one register write.  Returns the kernel return code and the
updated write state; a failed write performs nothing. -/
def cci_write (fl : Oracle) (s : WState) (addr : Nat) (val : Int) :
    Int × WState :=
  match fl s.1 with
  | some e => (e, s)
  | none => (0, (s.1 + 1, s.2 ++ [(addr, val)]))

/-- `cci_multi_reg_write`: sequential writes, stopping at the first error. -/
def cci_multi_reg_write (fl : Oracle) (s : WState) :
    List RegWrite → Int × WState
  | [] => (0, s)
  | r :: rest =>
    let (e, s') := cci_write fl s r.1 r.2
    if e = 0 then cci_multi_reg_write fl s' rest else (e, s')

/-- Oracle under which every write succeeds. -/
def ok_oracle : Oracle := fun _ => none

/-- One v4l2 integer control: range, step, default and current value, plus the
grabbed flag (`__v4l2_ctrl_grab`). -/
structure v4l2_ctrl where
  minimum : Int
  maximum : Int
  step : Int
  default_value : Int
  val : Int
  grabbed : Bool
deriving DecidableEq

/-- Kernel `clamp_t(val, lo, hi)` = `min(max(val, lo), hi)`. -/
def v4l2_clamp (v lo hi : Int) : Int := min (max v lo) hi

/-- `__v4l2_ctrl_modify_range` for an integer control: install the new range,
step and default, and re-validate (clamp) the current value into the new
range. -/
def v4l2_ctrl_modify_range (c : v4l2_ctrl) (lo hi step dflt : Int) :
    v4l2_ctrl :=
  { c with minimum := lo, maximum := hi, step := step, default_value := dflt,
           val := v4l2_clamp c.val lo hi }

/-- Framework-side value store: clamp the requested value into the control's
current range. -/
def ctrl_set_val (c : v4l2_ctrl) (v : Int) : v4l2_ctrl :=
  { c with val := v4l2_clamp v c.minimum c.maximum }

/-! ## Device state (struct ar0822) -/

/-- `struct ar0822`: the per-device mutable state that the modelled
operations touch.  `pm` is the runtime-PM usage count observed by the
driver's get/put calls. -/
structure ar0822 where
  pll_config : ar0822_pll_config
  lane_mode : ar0822_lane_mode_id
  num_data_lanes : Nat
  mode_format : ar0822_format
  mode_bit_depth : ar0822_bit_depth_id
  fmt_code : Nat
  streaming : Bool
  pm : Nat
  vblank : v4l2_ctrl
  hblank : v4l2_ctrl
  exposure : v4l2_ctrl
  hflip : v4l2_ctrl
  vflip : v4l2_ctrl
  gain : v4l2_ctrl
  test_pattern : v4l2_ctrl
  tp_red : v4l2_ctrl
  tp_greenr : v4l2_ctrl
  tp_blue : v4l2_ctrl
  tp_greenb : v4l2_ctrl
deriving DecidableEq

/-- `ar0822_get_timing`: timing for the current mode and lane configuration. -/
def ar0822_get_timing (sensor : ar0822) : ar0822_timing :=
  sensor.mode_format.timingAt sensor.lane_mode sensor.mode_bit_depth

/-- `ar0822_get_bit_depth`: bit count of a bit depth id.  (The C version can
also reject an out-of-range enum value; the Lean enum has no such values.) -/
def ar0822_get_bit_depth : ar0822_bit_depth_id → Nat
  | .b10 => 10
  | .b12 => 12

/-- `ar0822_adjust_exposure_range`: recompute the exposure control's maximum
from the current format height and VBLANK value, keeping the minimum and
clamping the default to the new maximum. -/
def ar0822_adjust_exposure_range (sensor : ar0822) : ar0822 :=
  let exposure_max : Int :=
    (sensor.mode_format.height : Int) + sensor.vblank.val - AR0822_EXPOSURE_MIN
  let exposure_def : Int := min exposure_max sensor.exposure.val
  { sensor with
    exposure := v4l2_ctrl_modify_range sensor.exposure
      sensor.exposure.minimum exposure_max sensor.exposure.step exposure_def }

/-- Value written to AR0822_REG_IMAGE_ORIENTATION:
`hflip->val | vflip->val << 1`. -/
def ar0822_orientation (sensor : ar0822) : Int :=
  Int.ofNat (sensor.hflip.val.toNat ||| (sensor.vflip.val.toNat <<< 1))

/-- The control ids handled by `ar0822_set_ctrl`; `unknown` stands for any
other V4L2 control id. -/
inductive ctrl_id where
  | vblank
  | exposure
  | analogue_gain
  | hflip
  | vflip
  | test_pattern
  | test_pattern_red
  | test_pattern_greenr
  | test_pattern_blue
  | test_pattern_greenb
  | unknown (id : Nat)
deriving DecidableEq

/-- `ar0822_set_ctrl`: the driver's s_ctrl callback.  The control's new value
has already been stored by the framework.  For VBLANK the exposure range is
adjusted first; then, only if the device is powered
(`pm_runtime_get_if_in_use` returned nonzero), the associated register is
written, with unknown ids yielding -EINVAL. -/
def ar0822_set_ctrl (sensor0 : ar0822) (id : ctrl_id) (powered : Bool)
    (fl : Oracle) : Int × ar0822 × List RegWrite :=
  let sensor := if id = .vblank then ar0822_adjust_exposure_range sensor0
                else sensor0
  if powered = false then (0, sensor, [])
  else
    match id with
    | .vblank =>
      let (r, s) := cci_write fl (0, []) AR0822_REG_FRAME_LENGTH_LINES
        ((sensor.mode_format.height : Int) + sensor.vblank.val)
      (r, sensor, s.2)
    | .exposure =>
      let (r, s) := cci_write fl (0, []) AR0822_REG_COARSE_INTEGRATION_TIME
        sensor.exposure.val
      (r, sensor, s.2)
    | .analogue_gain =>
      let (r, s) := cci_write fl (0, []) AR0822_REG_SENSOR_GAIN
        sensor.gain.val
      (r, sensor, s.2)
    | .hflip =>
      let (r, s) := cci_write fl (0, []) AR0822_REG_IMAGE_ORIENTATION
        (ar0822_orientation sensor)
      (r, sensor, s.2)
    | .vflip =>
      let (r, s) := cci_write fl (0, []) AR0822_REG_IMAGE_ORIENTATION
        (ar0822_orientation sensor)
      (r, sensor, s.2)
    | .test_pattern =>
      let (r, s) := cci_write fl (0, []) AR0822_REG_TEST_PATTERN_MODE
        (ar0822_test_pattern_val.getD sensor.test_pattern.val.toNat 0)
      (r, sensor, s.2)
    | .test_pattern_red =>
      let (r, s) := cci_write fl (0, []) AR0822_REG_TEST_DATA_RED
        sensor.tp_red.val
      (r, sensor, s.2)
    | .test_pattern_greenr =>
      let (r, s) := cci_write fl (0, []) AR0822_REG_TEST_DATA_GREENR
        sensor.tp_greenr.val
      (r, sensor, s.2)
    | .test_pattern_blue =>
      let (r, s) := cci_write fl (0, []) AR0822_REG_TEST_DATA_BLUE
        sensor.tp_blue.val
      (r, sensor, s.2)
    | .test_pattern_greenb =>
      let (r, s) := cci_write fl (0, []) AR0822_REG_TEST_DATA_GREENB
        sensor.tp_greenb.val
      (r, sensor, s.2)
    | .unknown _ => (EINVAL_ERR, sensor, [])

/-- Framework-side staging for `set_control`: store the (range-clamped) new
value into the targeted control before invoking the driver callback. -/
def ctrl_stage (sensor : ar0822) (id : ctrl_id) (v : Int) : ar0822 :=
  match id with
  | .vblank => { sensor with vblank := ctrl_set_val sensor.vblank v }
  | .exposure => { sensor with exposure := ctrl_set_val sensor.exposure v }
  | .analogue_gain => { sensor with gain := ctrl_set_val sensor.gain v }
  | .hflip => { sensor with hflip := ctrl_set_val sensor.hflip v }
  | .vflip => { sensor with vflip := ctrl_set_val sensor.vflip v }
  | .test_pattern =>
    { sensor with test_pattern := ctrl_set_val sensor.test_pattern v }
  | .test_pattern_red => { sensor with tp_red := ctrl_set_val sensor.tp_red v }
  | .test_pattern_greenr =>
    { sensor with tp_greenr := ctrl_set_val sensor.tp_greenr v }
  | .test_pattern_blue =>
    { sensor with tp_blue := ctrl_set_val sensor.tp_blue v }
  | .test_pattern_greenb =>
    { sensor with tp_greenb := ctrl_set_val sensor.tp_greenb v }
  | .unknown _ => sensor

/-- `set_control(id, v)`: framework staging followed by the driver's s_ctrl
callback. -/
def set_control (sensor : ar0822) (id : ctrl_id) (v : Int) (powered : Bool)
    (fl : Oracle) : Int × ar0822 × List RegWrite :=
  ar0822_set_ctrl (ctrl_stage sensor id v) id powered fl

/-! ## Framing limits, format negotiation, mode resolution -/

/-- `ar0822_set_framing_limits`: recompute the VBLANK and HBLANK controls
from the current mode's timing.  `__v4l2_ctrl_s_ctrl(vblank, ...)` stores the
value and runs the driver s_ctrl callback, whose state effect is
`ar0822_adjust_exposure_range`; its register I/O (performed only when
powered, return value ignored by this void function) does not affect the
control state and is elided here.  The HBLANK s_ctrl call hits the callback's
default branch, whose error is likewise ignored. -/
def ar0822_set_framing_limits (sensor0 : ar0822) : ar0822 :=
  let format := sensor0.mode_format
  let timing := ar0822_get_timing sensor0
  let vb_min : Int := (timing.frame_length_lines_min : Int) - format.height
  let sensor := { sensor0 with
    vblank := v4l2_ctrl_modify_range sensor0.vblank vb_min
      ((AR0822_VTS_MAX : Int) - format.height) sensor0.vblank.step vb_min }
  let sensor := { sensor with vblank := ctrl_set_val sensor.vblank vb_min }
  let sensor := ar0822_adjust_exposure_range sensor
  let hblank : Int := (timing.line_length_pck_min : Int) - format.width
  let sensor := { sensor with
    hblank := v4l2_ctrl_modify_range sensor.hblank hblank hblank 1 hblank }
  { sensor with hblank := ctrl_set_val sensor.hblank hblank }

/-- `ar0822_ctrls_init` (state part): create the controls with their initial
ranges and values, then apply `ar0822_set_framing_limits`. -/
def ar0822_ctrls_init (sensor0 : ar0822) : ar0822 :=
  let timing := ar0822_get_timing sensor0
  let exposure_max : Int :=
    (timing.frame_length_lines_min : Int) - AR0822_EXPOSURE_MIN
  let exposure_def : Int :=
    if exposure_max < AR0822_EXPOSURE_DEFAULT then exposure_max
    else AR0822_EXPOSURE_DEFAULT
  let sensor := { sensor0 with
    hblank := ⟨0, 0xFFFF, 1, 0, 0, false⟩,
    vblank := ⟨0, 0xFFFF, AR0822_VBLANK_STEP, 0, 0, false⟩,
    exposure := ⟨AR0822_EXPOSURE_MIN, exposure_max, AR0822_EXPOSURE_STEP,
                 exposure_def, exposure_def, false⟩,
    gain := ⟨AR0822_ANA_GAIN_MIN, AR0822_ANA_GAIN_MAX, 1,
             AR0822_ANA_GAIN_MIN, AR0822_ANA_GAIN_MIN, false⟩,
    hflip := ⟨0, 1, 1, 0, 0, false⟩,
    vflip := ⟨0, 1, 1, 0, 0, false⟩,
    test_pattern := ⟨0, 5, 1, 0, 0, false⟩,
    tp_red := ⟨AR0822_TEST_PATTERN_COLOR_MIN, AR0822_TEST_PATTERN_COLOR_MAX,
               1, AR0822_TEST_PATTERN_COLOR_MAX,
               AR0822_TEST_PATTERN_COLOR_MAX, false⟩,
    tp_greenr := ⟨AR0822_TEST_PATTERN_COLOR_MIN, AR0822_TEST_PATTERN_COLOR_MAX,
                  1, AR0822_TEST_PATTERN_COLOR_MAX,
                  AR0822_TEST_PATTERN_COLOR_MAX, false⟩,
    tp_blue := ⟨AR0822_TEST_PATTERN_COLOR_MIN, AR0822_TEST_PATTERN_COLOR_MAX,
                1, AR0822_TEST_PATTERN_COLOR_MAX,
                AR0822_TEST_PATTERN_COLOR_MAX, false⟩,
    tp_greenb := ⟨AR0822_TEST_PATTERN_COLOR_MIN, AR0822_TEST_PATTERN_COLOR_MAX,
                  1, AR0822_TEST_PATTERN_COLOR_MAX,
                  AR0822_TEST_PATTERN_COLOR_MAX, false⟩ }
  ar0822_set_framing_limits sensor

/-- `ar0822_get_format_code`: scan `ar0822_format_codes` for the requested
code; a code not in the table falls back to index 0 (10-bit SGRBG). -/
def ar0822_get_format_code (sensor : ar0822) (code : Nat) : Nat :=
  let i := ar0822_format_codes.findIdx (fun c => c == code)
  let i := if ar0822_format_codes.length ≤ i then 0 else i
  ar0822_format_codes.getD i 0

/-- `ar0822_get_bit_depth_id`: bit depth id of a media bus code, -ENOENT if
the code is not in `ar0822_format_codes`. -/
def ar0822_get_bit_depth_id (code : Nat) : Except Int ar0822_bit_depth_id :=
  match ar0822_format_codes.findIdx? (fun c => c == code) with
  | some 0 => .ok .b10
  | some 1 => .ok .b12
  | _ => .error ENOENT_ERR

/-- `ar0822_set_default_format`: select `formats[0]`, 10-bit depth and
`format_codes[0]`. -/
def ar0822_set_default_format (sensor : ar0822) : ar0822 :=
  { sensor with
    mode_format := sensor.pll_config.formats.getD 0
      ⟨0, 0, 0, 0, 0, 0, [], []⟩,
    mode_bit_depth := .b10,
    fmt_code := ar0822_format_codes.getD 0 0 }

/-- Manhattan size distance used by `v4l2_find_nearest_size`. -/
def v4l2_size_error (f : ar0822_format) (w h : Nat) : Nat :=
  ((f.width : Int) - w).natAbs + ((f.height : Int) - h).natAbs

/-- Scan loop of `__v4l2_find_nearest_size`: keep the entry with the smallest
error (later entries win ties), stopping early on an exact match. -/
def v4l2_find_nearest_go (w h : Nat) :
    List ar0822_format → Option ar0822_format → Nat → Option ar0822_format
  | [], best, _ => best
  | f :: rest, best, min_error =>
    let e := v4l2_size_error f w h
    if min_error < e then v4l2_find_nearest_go w h rest best min_error
    else if e = 0 then some f
    else v4l2_find_nearest_go w h rest (some f) e

/-- `v4l2_find_nearest_size` over the format catalog. -/
def v4l2_find_nearest_size (formats : List ar0822_format) (w h : Nat) :
    Option ar0822_format :=
  v4l2_find_nearest_go w h formats none 4294967295

/-- A media bus frame format as far as this driver reads it. -/
structure v4l2_mbus_framefmt where
  width : Nat
  height : Nat
  code : Nat
deriving DecidableEq

/-- `fmt->which`: TRY (per-open scratch state) or ACTIVE. -/
inductive format_whence where
  | tryFmt
  | activeFmt
deriving DecidableEq

/-- `ar0822_set_pad_format`.  Returns (device state, scratch try-state,
applied format).  `junk_bit_depth` models the value of the local variable
`bit_depth`, which the C code reads in the comparison at src/ar0822.c:1191
WITHOUT ever initializing it (undefined behavior); the caller of this model
chooses what garbage the stack happened to hold. -/
def ar0822_set_pad_format (sensor : ar0822) (scratch : v4l2_mbus_framefmt)
    (which : format_whence) (req : v4l2_mbus_framefmt)
    (junk_bit_depth : ar0822_bit_depth_id) :
    ar0822 × v4l2_mbus_framefmt × v4l2_mbus_framefmt :=
  let code := ar0822_get_format_code sensor req.code
  let format := (v4l2_find_nearest_size sensor.pll_config.formats
    req.width req.height).getD ⟨0, 0, 0, 0, 0, 0, [], []⟩
  let applied : v4l2_mbus_framefmt :=
    { width := format.width, height := format.height, code := code }
  match which with
  | .tryFmt => (sensor, applied, applied)
  | .activeFmt =>
    if sensor.mode_format ≠ format ∨ sensor.mode_bit_depth ≠ junk_bit_depth ∨
        sensor.fmt_code ≠ code then
      let bd := match ar0822_get_bit_depth_id code with
        | .ok d => d
        | .error _ => sensor.mode_bit_depth
      let sensor := { sensor with
        mode_format := format, mode_bit_depth := bd, fmt_code := code }
      (ar0822_set_framing_limits sensor, scratch, applied)
    else
      (sensor, scratch, applied)

/-- Mode-resolver core of `ar0822_parse_hw_config`: check the lane count,
then match EXTCLK and the first requested link frequency against
`ar0822_pll_configs` by exact equality. -/
def ar0822_parse_hw_config (extclk_frequency : Nat) (link_frequency : Int)
    (num_data_lanes : Nat) :
    Except Int (ar0822_lane_mode_id × ar0822_pll_config) :=
  let lane_mode : Option ar0822_lane_mode_id :=
    match num_data_lanes with
    | 2 => some .l2
    | 4 => some .l4
    | _ => none
  match lane_mode with
  | none => .error EINVAL_ERR
  | some lm =>
    match ar0822_pll_configs.find? (fun c =>
        c.freq_extclk == extclk_frequency && c.freq_link == link_frequency) with
    | some c => .ok (lm, c)
    | none => .error EINVAL_ERR

/-- `ar0822_probe` (configuration path): parse the hardware configuration
(aborting bring-up on error), set the default format and initialize the
controls.  Identity check, regmap setup and power sequencing are external. -/
def ar0822_probe (extclk_frequency : Nat) (link_frequency : Int)
    (num_data_lanes : Nat) : Except Int ar0822 :=
  match ar0822_parse_hw_config extclk_frequency link_frequency
      num_data_lanes with
  | .error e => .error e
  | .ok (lm, cfg) =>
    let blank : v4l2_ctrl := ⟨0, 0, 1, 0, 0, false⟩
    let sensor : ar0822 :=
      { pll_config := cfg, lane_mode := lm, num_data_lanes := num_data_lanes,
        mode_format := ⟨0, 0, 0, 0, 0, 0, [], []⟩, mode_bit_depth := .b10,
        fmt_code := 0, streaming := false, pm := 1,
        vblank := blank, hblank := blank, exposure := blank, hflip := blank,
        vflip := blank, gain := blank, test_pattern := blank, tp_red := blank,
        tp_greenr := blank, tp_blue := blank, tp_greenb := blank }
    .ok (ar0822_ctrls_init (ar0822_set_default_format sensor))

/-! ## Streaming state machine -/

/-- `ar0822_config_pll`: PLL register sequence, then the op_word_clk_div
write (bit depth / 2), then the per-bit-depth MIPI timing sequence. -/
def ar0822_config_pll (sensor : ar0822) (fl : Oracle) (s0 : WState) :
    Int × WState :=
  let bit_depth := ar0822_get_bit_depth sensor.mode_bit_depth
  let (r, s) := cci_multi_reg_write fl s0 sensor.pll_config.regs_pll
  if r < 0 then (r, s) else
  let (r, s) := cci_write fl s AR0822_REG_OP_WORD_CLK_DIV
    (Int.ofNat (bit_depth / 2))
  if r < 0 then (r, s) else
  cci_multi_reg_write fl s (sensor.pll_config.regsMipi sensor.mode_bit_depth)

/-- `ar0822_config_serial_format`: serial format (0x200 | lane count) and
data format bits ((depth << 8) | depth). -/
def ar0822_config_serial_format (sensor : ar0822) (fl : Oracle)
    (s0 : WState) : Int × WState :=
  let bit_depth := ar0822_get_bit_depth sensor.mode_bit_depth
  let (r, s) := cci_write fl s0 AR0822_REG_SERIAL_FORMAT
    (Int.ofNat (0x200 ||| sensor.num_data_lanes))
  if r < 0 then (r, s) else
  cci_write fl s AR0822_REG_DATA_FORMAT_BITS
    (Int.ofNat ((bit_depth <<< 8) ||| bit_depth))

/-- `__v4l2_ctrl_handler_setup`: re-apply every writable control in
registration order (read-only controls are skipped by the framework), with
the device powered.  The VBLANK s_ctrl first adjusts the exposure range;
setup stops at the first failing write. -/
def ar0822_ctrl_handler_setup_go (sensor : ar0822) (fl : Oracle)
    (s0 : WState) : Int × ar0822 × WState :=
  let (r, s) := cci_write fl s0 AR0822_REG_FRAME_LENGTH_LINES
    ((sensor.mode_format.height : Int) + sensor.vblank.val)
  if r ≠ 0 then (r, sensor, s) else
  let (r, s) := cci_write fl s AR0822_REG_COARSE_INTEGRATION_TIME
    sensor.exposure.val
  if r ≠ 0 then (r, sensor, s) else
  let (r, s) := cci_write fl s AR0822_REG_SENSOR_GAIN sensor.gain.val
  if r ≠ 0 then (r, sensor, s) else
  let (r, s) := cci_write fl s AR0822_REG_IMAGE_ORIENTATION
    (ar0822_orientation sensor)
  if r ≠ 0 then (r, sensor, s) else
  let (r, s) := cci_write fl s AR0822_REG_IMAGE_ORIENTATION
    (ar0822_orientation sensor)
  if r ≠ 0 then (r, sensor, s) else
  let (r, s) := cci_write fl s AR0822_REG_TEST_PATTERN_MODE
    (ar0822_test_pattern_val.getD sensor.test_pattern.val.toNat 0)
  if r ≠ 0 then (r, sensor, s) else
  let (r, s) := cci_write fl s AR0822_REG_TEST_DATA_RED sensor.tp_red.val
  if r ≠ 0 then (r, sensor, s) else
  let (r, s) := cci_write fl s AR0822_REG_TEST_DATA_GREENR
    sensor.tp_greenr.val
  if r ≠ 0 then (r, sensor, s) else
  let (r, s) := cci_write fl s AR0822_REG_TEST_DATA_BLUE sensor.tp_blue.val
  if r ≠ 0 then (r, sensor, s) else
  let (r, s) := cci_write fl s AR0822_REG_TEST_DATA_GREENB
    sensor.tp_greenb.val
  (r, sensor, s)

/-- `__v4l2_ctrl_handler_setup`: the VBLANK s_ctrl first adjusts the exposure
range, then the writable controls are re-applied in registration order by
`ar0822_ctrl_handler_setup_go`. -/
def ar0822_ctrl_handler_setup (sensor0 : ar0822) (fl : Oracle) (s0 : WState) :
    Int × ar0822 × WState :=
  ar0822_ctrl_handler_setup_go (ar0822_adjust_exposure_range sensor0) fl s0

/-- Register-programming chain of `ar0822_start_streaming`, run on the
device state holding the freshly acquired power reference. -/
def ar0822_start_streaming_go (sensor : ar0822) (fl : Oracle) :
    Int × ar0822 × List RegWrite :=
  let (r, s) := cci_write fl (0, []) AR0822_REG_MODE_SELECT
    AR0822_MODE_SELECT_STREAM_ON
  if r < 0 then (r, sensor, s.2) else
  let (r, s) := cci_write fl s AR0822_REG_MODE_SELECT
    AR0822_MODE_SELECT_STREAM_OFF
  if r < 0 then (r, sensor, s.2) else
  let (r, s) := ar0822_config_pll sensor fl s
  if r < 0 then (r, sensor, s.2) else
  let (r, s) := cci_multi_reg_write fl s ar0822_regs_common
  if r < 0 then (r, sensor, s.2) else
  let (r, s) := cci_multi_reg_write fl s sensor.mode_format.reg_sequence
  if r < 0 then (r, sensor, s.2) else
  let (r, s) := ar0822_config_serial_format sensor fl s
  if r ≠ 0 then (r, sensor, s.2) else
  let (r, s) := cci_write fl s AR0822_REG_LINE_LENGTH_PCK
    (Int.ofNat (ar0822_get_timing sensor).line_length_pck_min)
  if r ≠ 0 then (r, sensor, s.2) else
  let (r, sensor, s) := ar0822_ctrl_handler_setup sensor fl s
  if r ≠ 0 then (r, sensor, s.2) else
  let (r, s) := cci_write fl s AR0822_REG_MODE_SELECT
    AR0822_MODE_SELECT_STREAM_ON
  (r, sensor, s.2)

/-- `ar0822_start_streaming`: resume power (usage count +1,
`pm_runtime_resume_and_get`), then run the register-programming chain.
Every error path returns without releasing the power reference, exactly as
the C code does. -/
def ar0822_start_streaming (sensor0 : ar0822) (fl : Oracle) :
    Int × ar0822 × List RegWrite :=
  ar0822_start_streaming_go { sensor0 with pm := sensor0.pm + 1 } fl

/-- Result of `ar0822_set_stream`: return code, device state and the
register writes that were performed. -/
structure stream_result where
  ret : Int
  dev : ar0822
  writes : List RegWrite
deriving DecidableEq

/-- `ar0822_set_stream`: no-op when the streaming flag already equals the
request; otherwise start or stop streaming.  Stop writes mode select to
standby (errors only logged), releases the power reference and always
succeeds; a failed start leaves the streaming flag unchanged and the flip
controls ungrabbed. -/
def ar0822_set_stream (sensor : ar0822) (enable : Bool) (fl : Oracle) :
    stream_result :=
  if sensor.streaming = enable then ⟨0, sensor, []⟩
  else if enable then
    let (r, sensor', log) := ar0822_start_streaming sensor fl
    if r ≠ 0 then ⟨r, sensor', log⟩
    else
      ⟨0, { sensor' with
              streaming := true,
              vflip := { sensor'.vflip with grabbed := true },
              hflip := { sensor'.hflip with grabbed := true } }, log⟩
  else
    let (_, s) := cci_write fl (0, []) AR0822_REG_MODE_SELECT
      AR0822_MODE_SELECT_STREAM_OFF
    ⟨0, { sensor with
            streaming := false,
            pm := sensor.pm - 1,
            vflip := { sensor.vflip with grabbed := false },
            hflip := { sensor.hflip with grabbed := false } }, s.2⟩

/-- The writes issued by the control re-application of the enable sequence
after its leading frame-length write: exposure (clamped by the adjusted
range), analogue gain, orientation (once for HFLIP, once for VFLIP), test
pattern mode and the four test colors. -/
def ar0822_ctrl_setup_tail (sensor : ar0822) : List RegWrite :=
  [(AR0822_REG_COARSE_INTEGRATION_TIME,
    (ar0822_adjust_exposure_range sensor).exposure.val),
   (AR0822_REG_SENSOR_GAIN, sensor.gain.val),
   (AR0822_REG_IMAGE_ORIENTATION, ar0822_orientation sensor),
   (AR0822_REG_IMAGE_ORIENTATION, ar0822_orientation sensor),
   (AR0822_REG_TEST_PATTERN_MODE,
    ar0822_test_pattern_val.getD sensor.test_pattern.val.toNat 0),
   (AR0822_REG_TEST_DATA_RED, sensor.tp_red.val),
   (AR0822_REG_TEST_DATA_GREENR, sensor.tp_greenr.val),
   (AR0822_REG_TEST_DATA_BLUE, sensor.tp_blue.val),
   (AR0822_REG_TEST_DATA_GREENB, sensor.tp_greenb.val)]

/-! ## Concrete fixtures used by witnesses and counterexamples -/

/-- All-zero format (placeholder before the default format is set). -/
def emptyFmt : ar0822_format := ⟨0, 0, 0, 0, 0, 0, [], []⟩

/-- The 3840x2160 catalog entry of the 24/960 config. -/
def fmt4k960 : ar0822_format := ar0822_formats_24_960.getD 1 emptyFmt

/-- All-zero control (placeholder before `ar0822_ctrls_init`). -/
def blankCtrl : v4l2_ctrl := ⟨0, 0, 1, 0, 0, false⟩

/-- Freshly allocated device bound to the 24/960 config on 2 lanes, before
default-format and control initialization. -/
def sensorBase : ar0822 :=
  { pll_config := ar0822_pll_cfg_24_960, lane_mode := .l2, num_data_lanes := 2,
    mode_format := emptyFmt, mode_bit_depth := .b10, fmt_code := 0,
    streaming := false, pm := 1,
    vblank := blankCtrl, hblank := blankCtrl, exposure := blankCtrl,
    hflip := blankCtrl, vflip := blankCtrl, gain := blankCtrl,
    test_pattern := blankCtrl, tp_red := blankCtrl, tp_greenr := blankCtrl,
    tp_blue := blankCtrl, tp_greenb := blankCtrl }

/-- Device state after the probe-time initialization on the 24/960 config. -/
def sensorProbed : ar0822 :=
  ar0822_ctrls_init (ar0822_set_default_format sensorBase)

/-- A device switched to the 4K / 12-bit mode whose user raised VBLANK from
the mode default 24 to 504. -/
def sensor4k12 : ar0822 :=
  { sensorProbed with
      mode_format := fmt4k960,
      mode_bit_depth := .b12,
      fmt_code := MEDIA_BUS_FMT_SGRBG12_1X12,
      vblank := ⟨24, 63375, 8, 24, 504, false⟩ }

/-- A 3840x2160 SGRBG12 set-format request. -/
def req4k12 : v4l2_mbus_framefmt := ⟨3840, 2160, MEDIA_BUS_FMT_SGRBG12_1X12⟩

/-- The probe-default device after the user raised VBLANK from its mode
default 1632 to the in-range value 2000 while stopped. -/
def sensorVblankRaised : ar0822 :=
  { sensorProbed with vblank := { sensorProbed.vblank with val := 2000 } }

/-- An empty scratch (per-open-file try) format. -/
def scratch0 : v4l2_mbus_framefmt := ⟨0, 0, 0⟩

/-- Oracle that fails the first register write with -5 (-EIO). -/
def fail_first_oracle : Oracle := fun n => if n = 0 then some (-5) else none

/-- Oracle that fails the fourth register write with -5. -/
def fail_fourth_oracle : Oracle := fun n => if n = 3 then some (-5) else none

/-! ## Helper lemmas -/

/-- Under the all-success oracle a multi-register write appends the whole
sequence to the log. -/
theorem cci_multi_reg_write_ok (regs : List RegWrite) (s : WState) :
    cci_multi_reg_write ok_oracle s regs =
      (0, (s.1 + regs.length, s.2 ++ regs)) := by
  induction regs generalizing s with
  | nil => simp [cci_multi_reg_write]
  | cons r rest ih =>
    simp only [cci_multi_reg_write, cci_write, ok_oracle, if_pos rfl,
      List.length_cons, ih]
    refine Prod.ext rfl (Prod.ext ?_ ?_) <;> simp <;> omega

/-! ## Claim theorems -/

/-- Claim C3: at attach time the mode resolver matches the external clock
frequency and the first requested link frequency against the static catalog
by exact equality; every catalog pair selects its unique entry, and every
non-catalog pair fails with -EINVAL, aborting probe. -/
theorem claim_mode_resolver_exact_match (n : Nat) (hn : n = 2 ∨ n = 4) :
    (∀ c ∈ ar0822_pll_configs,
      ar0822_parse_hw_config c.freq_extclk c.freq_link n =
        .ok ((if n = 2 then ar0822_lane_mode_id.l2 else ar0822_lane_mode_id.l4),
             c) ∧
      (ar0822_pll_configs.countP (fun c' =>
        c'.freq_extclk == c.freq_extclk && c'.freq_link == c.freq_link)) = 1) ∧
    (∀ (e : Nat) (l : Int),
      (∀ c ∈ ar0822_pll_configs, ¬(c.freq_extclk = e ∧ c.freq_link = l)) →
      ar0822_parse_hw_config e l n = .error EINVAL_ERR ∧
      ar0822_probe e l n = .error EINVAL_ERR) := by
  have hmem480 : ar0822_pll_cfg_24_480 ∈ ar0822_pll_configs := by
    simp [ar0822_pll_configs]
  have hmem960 : ar0822_pll_cfg_24_960 ∈ ar0822_pll_configs := by
    simp [ar0822_pll_configs]
  constructor
  · intro c hc
    simp only [ar0822_pll_configs, List.mem_cons, List.not_mem_nil,
      or_false] at hc
    rcases hn with rfl | rfl <;> rcases hc with rfl | rfl <;>
      exact ⟨rfl, rfl⟩
  · intro e l h
    have h1 := h _ hmem480
    have h2 := h _ hmem960
    have p1 : (ar0822_pll_cfg_24_480.freq_extclk == e &&
        ar0822_pll_cfg_24_480.freq_link == l) = false := by
      simp only [Bool.and_eq_false_iff, beq_eq_false_iff_ne, ne_eq]
      tauto
    have p2 : (ar0822_pll_cfg_24_960.freq_extclk == e &&
        ar0822_pll_cfg_24_960.freq_link == l) = false := by
      simp only [Bool.and_eq_false_iff, beq_eq_false_iff_ne, ne_eq]
      tauto
    have hfind : ar0822_pll_configs.find? (fun c =>
        c.freq_extclk == e && c.freq_link == l) = none := by
      simp [ar0822_pll_configs, List.find?, p1, p2]
    rcases hn with rfl | rfl <;>
      simp [ar0822_parse_hw_config, ar0822_probe, hfind]

/-- Witness for C3: the 24 MHz / 960 Mbps pair resolves to the 24/960 catalog
entry, and an unlisted pair (24 MHz, 500 Mbps) fails with -EINVAL. -/
theorem claim_mode_resolver_exact_match_witness :
    ar0822_parse_hw_config 24000000 960000000 2 =
      .ok (.l2, ar0822_pll_cfg_24_960) ∧
    ar0822_parse_hw_config 24000000 500000000 2 = .error EINVAL_ERR := by
  have h := claim_mode_resolver_exact_match 2 (Or.inl rfl)
  refine ⟨?_, ?_⟩
  · have h1 := (h.1 ar0822_pll_cfg_24_960 (by simp [ar0822_pll_configs])).1
    simpa using h1
  · exact (h.2 24000000 500000000 (by decide)).1

/-- Claim C10: for every control id, an unpowered `set_control` returns 0 and
performs no register write (the value is only staged); the -EINVAL for an
unknown id is produced only when the device is powered. -/
theorem claim_set_ctrl_unpowered :
    ∀ (sensor : ar0822) (id : ctrl_id) (v : Int) (fl : Oracle),
      (set_control sensor id v false fl).1 = 0 ∧
      (set_control sensor id v false fl).2.2 = [] ∧
      ∀ (n : Nat),
        (set_control sensor (.unknown n) v true fl).1 = EINVAL_ERR := by
  intro sensor id v fl
  refine ⟨rfl, rfl, fun n => rfl⟩

/-- Claim C8: stream enable and disable are idempotent: enable on a streaming
device and disable on a stopped device succeed without touching state or
registers, and a second enable after a successful enable performs no
register writes. -/
theorem claim_set_stream_idempotent (sensor : ar0822) (fl fl2 : Oracle) :
    (sensor.streaming = true →
      ar0822_set_stream sensor true fl = ⟨0, sensor, []⟩) ∧
    (sensor.streaming = false →
      ar0822_set_stream sensor false fl = ⟨0, sensor, []⟩) ∧
    ((ar0822_set_stream sensor true fl).ret = 0 →
      ar0822_set_stream (ar0822_set_stream sensor true fl).dev true fl2 =
        ⟨0, (ar0822_set_stream sensor true fl).dev, []⟩) := by
  refine ⟨fun h => by simp [ar0822_set_stream, h],
          fun h => by simp [ar0822_set_stream, h], ?_⟩
  intro hret
  have hdev : (ar0822_set_stream sensor true fl).dev.streaming = true := by
    by_cases hs : sensor.streaming = true
    · simp [ar0822_set_stream, hs]
    · simp only [Bool.not_eq_true] at hs
      rcases hE : ar0822_start_streaming sensor fl with ⟨r, s', log⟩
      by_cases hr : r = 0
      · simp [ar0822_set_stream, hs, hE, hr]
      · exfalso
        apply hr
        simpa [ar0822_set_stream, hs, hE, hr] using hret
  generalize (ar0822_set_stream sensor true fl).dev = d at hdev ⊢
  simp [ar0822_set_stream, hdev]

/-- Witness for C8: on a streaming device a redundant enable is a no-op. -/
theorem claim_set_stream_idempotent_witness :
    ar0822_set_stream { sensorProbed with streaming := true } true ok_oracle =
      ⟨0, { sensorProbed with streaming := true }, []⟩ :=
  (claim_set_stream_idempotent { sensorProbed with streaming := true }
    ok_oracle ok_oracle).1 rfl

/-- The device state returned by `ar0822_set_ctrl` is the input state with,
for VBLANK only, the exposure range adjusted; register writes never alter
it. -/
theorem ar0822_set_ctrl_dev (sensor : ar0822) (id : ctrl_id) (powered : Bool)
    (fl : Oracle) :
    (ar0822_set_ctrl sensor id powered fl).2.1 =
      if id = .vblank then ar0822_adjust_exposure_range sensor else sensor := by
  cases powered <;> cases id <;>
    simp [ar0822_set_ctrl, cci_write] <;>
    cases fl 0 <;> simp

/-- Claim C2: after `set_control(VBLANK, v)` with v in range, the exposure
maximum equals height + v - EXPOSURE_MIN, the exposure minimum is unchanged,
and both the current and the default exposure value are at most the new
maximum; the range is re-established in the device state even when the
device is unpowered and no register is written. -/
theorem claim_vblank_exposure_coupling (sensor : ar0822) (v : Int)
    (powered : Bool) (fl : Oracle)
    (hlo : sensor.vblank.minimum ≤ v) (hhi : v ≤ sensor.vblank.maximum) :
    (set_control sensor .vblank v powered fl).2.1.exposure.maximum =
      (sensor.mode_format.height : Int) + v - AR0822_EXPOSURE_MIN ∧
    (set_control sensor .vblank v powered fl).2.1.exposure.minimum =
      sensor.exposure.minimum ∧
    (set_control sensor .vblank v powered fl).2.1.exposure.val ≤
      (set_control sensor .vblank v powered fl).2.1.exposure.maximum ∧
    (set_control sensor .vblank v powered fl).2.1.exposure.default_value ≤
      (set_control sensor .vblank v powered fl).2.1.exposure.maximum ∧
    (powered = false → (set_control sensor .vblank v powered fl).2.2 = []) := by
  have hdev : (set_control sensor .vblank v powered fl).2.1 =
      ar0822_adjust_exposure_range (ctrl_stage sensor .vblank v) := by
    unfold set_control
    rw [ar0822_set_ctrl_dev]
    simp
  have hclamp : v4l2_clamp v sensor.vblank.minimum sensor.vblank.maximum
      = v := by
    unfold v4l2_clamp
    rw [max_eq_left hlo, min_eq_left hhi]
  refine ⟨?_, ?_, ?_, ?_, ?_⟩
  · rw [hdev]
    simp [ar0822_adjust_exposure_range, ctrl_stage, ctrl_set_val,
      v4l2_ctrl_modify_range, hclamp]
  · rw [hdev]
    simp [ar0822_adjust_exposure_range, ctrl_stage, ctrl_set_val,
      v4l2_ctrl_modify_range]
  · rw [hdev]
    simp only [ar0822_adjust_exposure_range, ctrl_stage, ctrl_set_val,
      v4l2_ctrl_modify_range, v4l2_clamp]
    exact min_le_right _ _
  · rw [hdev]
    simp only [ar0822_adjust_exposure_range, ctrl_stage, ctrl_set_val,
      v4l2_ctrl_modify_range, v4l2_clamp]
    exact min_le_left _ _
  · rintro rfl
    rfl

/-- Witness for C2: on the probe-default device, setting VBLANK to the
in-range value 2000 raises the exposure maximum to 1080 + 2000 - 4. -/
theorem claim_vblank_exposure_coupling_witness :
    (set_control sensorProbed .vblank 2000 false ok_oracle).2.1.exposure.maximum
      = (sensorProbed.mode_format.height : Int) + 2000 - AR0822_EXPOSURE_MIN :=
  (claim_vblank_exposure_coupling sensorProbed 2000 false ok_oracle
    (by decide) (by decide)).1

/-- Claim C7: `ar0822_set_framing_limits` (run whenever the active format or
bit depth changes) sets the VBLANK range to
[frame_length_lines_min - height, VTS_MAX - height] with the value and
default reset to the minimum, and fixes HBLANK to the single value
line_length_pck_min - width. -/
theorem claim_framing_limits_recompute (sensor : ar0822)
    (hfll : (ar0822_get_timing sensor).frame_length_lines_min ≤
      AR0822_VTS_MAX) :
    (ar0822_set_framing_limits sensor).vblank.minimum =
      ((ar0822_get_timing sensor).frame_length_lines_min : Int) -
        sensor.mode_format.height ∧
    (ar0822_set_framing_limits sensor).vblank.maximum =
      (AR0822_VTS_MAX : Int) - sensor.mode_format.height ∧
    (ar0822_set_framing_limits sensor).vblank.val =
      ((ar0822_get_timing sensor).frame_length_lines_min : Int) -
        sensor.mode_format.height ∧
    (ar0822_set_framing_limits sensor).vblank.default_value =
      ((ar0822_get_timing sensor).frame_length_lines_min : Int) -
        sensor.mode_format.height ∧
    (ar0822_set_framing_limits sensor).hblank.minimum =
      ((ar0822_get_timing sensor).line_length_pck_min : Int) -
        sensor.mode_format.width ∧
    (ar0822_set_framing_limits sensor).hblank.maximum =
      ((ar0822_get_timing sensor).line_length_pck_min : Int) -
        sensor.mode_format.width ∧
    (ar0822_set_framing_limits sensor).hblank.val =
      ((ar0822_get_timing sensor).line_length_pck_min : Int) -
        sensor.mode_format.width ∧
    (ar0822_set_framing_limits sensor).hblank.default_value =
      ((ar0822_get_timing sensor).line_length_pck_min : Int) -
        sensor.mode_format.width := by
  have hm : ((ar0822_get_timing sensor).frame_length_lines_min : Int) -
      sensor.mode_format.height ≤
      (AR0822_VTS_MAX : Int) - sensor.mode_format.height := by
    have hc : ((ar0822_get_timing sensor).frame_length_lines_min : Int) ≤
        (AR0822_VTS_MAX : Int) := by exact_mod_cast hfll
    omega
  refine ⟨?_, ?_, ?_, ?_, ?_, ?_, ?_, ?_⟩ <;>
    simp only [ar0822_set_framing_limits, ar0822_adjust_exposure_range,
      v4l2_ctrl_modify_range, ctrl_set_val, v4l2_clamp, max_self, min_self]
  exact min_eq_left hm

/-- Witness for C7: recomputing limits on the 4K / 12-bit device resets the
VBLANK value to 2184 - 2160 = 24. -/
theorem claim_framing_limits_recompute_witness :
    (ar0822_set_framing_limits sensor4k12).vblank.val =
      ((ar0822_get_timing sensor4k12).frame_length_lines_min : Int) -
        sensor4k12.mode_format.height :=
  (claim_framing_limits_recompute sensor4k12 (by decide)).2.2.1

/-- `ar0822_get_format_code` in closed form: the requested code is kept when
it is one of the two supported SGRBG codes, otherwise it falls back to the
10-bit SGRBG code; no flip state is consulted. -/
theorem ar0822_get_format_code_eq (s : ar0822) (code : Nat) :
    ar0822_get_format_code s code =
      (if code = MEDIA_BUS_FMT_SGRBG10_1X10 ∨
          code = MEDIA_BUS_FMT_SGRBG12_1X12 then code
       else MEDIA_BUS_FMT_SGRBG10_1X10) := by
  by_cases h1 : code = MEDIA_BUS_FMT_SGRBG10_1X10
  · subst h1
    rfl
  · by_cases h2 : code = MEDIA_BUS_FMT_SGRBG12_1X12
    · subst h2
      rfl
    · have cA : (MEDIA_BUS_FMT_SGRBG10_1X10 == code) = false :=
        beq_eq_false_iff_ne.mpr (fun h => h1 h.symm)
      have cB : (MEDIA_BUS_FMT_SGRBG12_1X12 == code) = false :=
        beq_eq_false_iff_ne.mpr (fun h => h2 h.symm)
      simp [ar0822_get_format_code, ar0822_format_codes, List.findIdx_cons,
        cA, cB, h1, h2]

/-- Counterexample for C5: there is no injective four-entry Bayer-rotation
table indexed by `vflip << 1 | hflip` that describes the applied code, since
the applied code does not depend on the flip controls at all: two devices
differing only in HFLIP yield the same applied code, forcing two distinct
table entries to coincide. -/
theorem claim_format_code_flip_table_counterexample :
    ¬ ∃ table : Fin 4 → Nat, Function.Injective table ∧
      ∀ (s : ar0822) (scratch req : v4l2_mbus_framefmt)
        (junk : ar0822_bit_depth_id) (which : format_whence),
        (ar0822_set_pad_format s scratch which req junk).2.2.code =
          table ⟨(s.vflip.val.toNat <<< 1 ||| s.hflip.val.toNat) % 4,
                 Nat.mod_lt _ (by decide)⟩ := by
  rintro ⟨table, hinj, h⟩
  have h0 := h sensorProbed scratch0 req4k12 .b10 .tryFmt
  have h1 := h { sensorProbed with hflip := ⟨0, 1, 1, 0, 1, false⟩ }
    scratch0 req4k12 .b10 .tryFmt
  have e0 : (ar0822_set_pad_format sensorProbed scratch0 .tryFmt req4k12
      .b10).2.2.code = 12304 := by decide
  have e1 : (ar0822_set_pad_format
      { sensorProbed with hflip := ⟨0, 1, 1, 0, 1, false⟩ } scratch0 .tryFmt
      req4k12 .b10).2.2.code = 12304 := by decide
  have i0 : (⟨(sensorProbed.vflip.val.toNat <<< 1 |||
      sensorProbed.hflip.val.toNat) % 4, Nat.mod_lt _ (by decide)⟩ : Fin 4) =
      ⟨0, by decide⟩ := by
    apply Fin.ext
    decide
  have i1 : (⟨(({ sensorProbed with hflip := ⟨0, 1, 1, 0, 1, false⟩ } :
      ar0822).vflip.val.toNat <<< 1 |||
      ({ sensorProbed with hflip := ⟨0, 1, 1, 0, 1, false⟩ } :
      ar0822).hflip.val.toNat) % 4, Nat.mod_lt _ (by decide)⟩ : Fin 4) =
      ⟨1, by decide⟩ := by
    apply Fin.ext
    decide
  rw [e0, i0] at h0
  rw [e1, i1] at h1
  exact absurd (hinj (h0.symm.trans h1)) (by decide)

/-- Amended C5: the applied media-bus code of every set_format request is the
requested code normalized to the two supported SGRBG codes (falling back to
the 10-bit code), independent of the flip controls, and set_format leaves the
flip controls untouched. -/
theorem claim_format_code_flip_independent (s : ar0822)
    (scratch req : v4l2_mbus_framefmt) (junk : ar0822_bit_depth_id)
    (which : format_whence) :
    (ar0822_set_pad_format s scratch which req junk).2.2.code =
      (if req.code = MEDIA_BUS_FMT_SGRBG10_1X10 ∨
          req.code = MEDIA_BUS_FMT_SGRBG12_1X12 then req.code
       else MEDIA_BUS_FMT_SGRBG10_1X10) ∧
    (ar0822_set_pad_format s scratch which req junk).1.hflip = s.hflip ∧
    (ar0822_set_pad_format s scratch which req junk).1.vflip = s.vflip := by
  have hcode := ar0822_get_format_code_eq s req.code
  unfold ar0822_set_pad_format
  cases which
  · simp [hcode]
  · have hfr_h : ∀ x : ar0822, (ar0822_set_framing_limits x).hflip =
        x.hflip := by
      intro x
      simp [ar0822_set_framing_limits, ar0822_adjust_exposure_range,
        v4l2_ctrl_modify_range, ctrl_set_val]
    have hfr_v : ∀ x : ar0822, (ar0822_set_framing_limits x).vflip =
        x.vflip := by
      intro x
      simp [ar0822_set_framing_limits, ar0822_adjust_exposure_range,
        v4l2_ctrl_modify_range, ctrl_set_val]
    refine ⟨?_, ?_, ?_⟩
    · rw [apply_ite
        (fun t : ar0822 × v4l2_mbus_framefmt × v4l2_mbus_framefmt =>
          t.2.2.code), ite_self]
      simpa using hcode
    · rw [apply_ite
        (fun t : ar0822 × v4l2_mbus_framefmt × v4l2_mbus_framefmt =>
          t.1.hflip)]
      simp [hfr_h]
    · rw [apply_ite
        (fun t : ar0822 × v4l2_mbus_framefmt × v4l2_mbus_framefmt =>
          t.1.vflip)]
      simp [hfr_v]

/-- Claim C6 (code-bug evaluation): after probe on the 24/960 catalog the
default mode is `formats[0]` = 1920x1080 — not the maximum-resolution
3840x2160 entry that the catalog contains and that the code's own comment
promises — and the default VBLANK is 2712 - 1080 = 1632, not
frame_length_lines_min(4K) - 2160 = 24. -/
theorem claim_default_format_eval :
    (ar0822_set_default_format sensorBase).mode_format.width = 1920 ∧
    (ar0822_set_default_format sensorBase).mode_format.height = 1080 ∧
    sensorProbed.vblank.val = 1632 ∧
    sensorProbed.vblank.default_value = 1632 ∧
    (∃ f ∈ sensorBase.pll_config.formats, f.width = 3840 ∧ f.height = 2160) ∧
    ¬(sensorProbed.mode_format.width = 3840 ∧
      sensorProbed.mode_format.height = 2160) ∧
    ((fmt4k960.timingAt .l2 .b12).frame_length_lines_min : Int) - 2160 = 24 := by
  refine ⟨by decide, by decide, by decide, by decide, ?_, by decide, by decide⟩
  exact ⟨fmt4k960, by decide, by decide, by decide⟩

/-- Claim C9 (code-bug evaluation): an ACTIVE set_format request that changes
nothing (same 3840x2160 format, same SGRBG12 code) behaves differently for
two possible values of the uninitialized local `bit_depth` read at
src/ar0822.c:1191: junk 10-bit spuriously recomputes framing limits and
resets the user's VBLANK 504 to the mode default 24, junk 12-bit leaves the
state untouched. -/
theorem claim_set_pad_format_uninit_eval :
    (ar0822_set_pad_format sensor4k12 scratch0 .activeFmt req4k12
      .b10).1.vblank.val = 24 ∧
    (ar0822_set_pad_format sensor4k12 scratch0 .activeFmt req4k12
      .b12).1.vblank.val = 504 ∧
    (ar0822_set_pad_format sensor4k12 scratch0 .activeFmt req4k12 .b10).1 ≠
      (ar0822_set_pad_format sensor4k12 scratch0 .activeFmt req4k12
        .b12).1 := by
  refine ⟨by decide, by decide, by decide⟩

/-- The device state returned by the control re-application chain is exactly
the state it was entered with. -/
theorem ar0822_ctrl_handler_setup_go_dev (sen : ar0822) (fl : Oracle)
    (w : WState) :
    (ar0822_ctrl_handler_setup_go sen fl w).2.1 = sen := by
  unfold ar0822_ctrl_handler_setup_go
  repeat' split
  all_goals rfl

/-- The device state returned by `ar0822_ctrl_handler_setup` is the input
state with the exposure range adjusted. -/
theorem ar0822_ctrl_handler_setup_dev (sen : ar0822) (fl : Oracle)
    (w : WState) :
    (ar0822_ctrl_handler_setup sen fl w).2.1 =
      ar0822_adjust_exposure_range sen :=
  ar0822_ctrl_handler_setup_go_dev (ar0822_adjust_exposure_range sen) fl w

/-- The register-programming chain never touches the streaming flag or the
power count of the state it runs on. -/
theorem ar0822_start_streaming_go_state (sen : ar0822) (fl : Oracle) :
    (ar0822_start_streaming_go sen fl).2.1.streaming = sen.streaming ∧
    (ar0822_start_streaming_go sen fl).2.1.pm = sen.pm := by
  unfold ar0822_start_streaming_go
  repeat' split
  all_goals try exact ⟨rfl, rfl⟩
  all_goals
    rename ar0822 => sv
    rename ar0822_ctrl_handler_setup _ _ _ = _ => heq
    have hd : sv = ar0822_adjust_exposure_range sen :=
      (congrArg (fun t => t.2.1) heq).symm.trans
        (ar0822_ctrl_handler_setup_dev sen fl _)
    exact ⟨by simp [hd, ar0822_adjust_exposure_range],
           by simp [hd, ar0822_adjust_exposure_range]⟩

/-- The device state threaded through `ar0822_start_streaming` never touches
the streaming flag and always carries the acquired power reference. -/
theorem ar0822_start_streaming_state (s : ar0822) (fl : Oracle) :
    (ar0822_start_streaming s fl).2.1.streaming = s.streaming ∧
    (ar0822_start_streaming s fl).2.1.pm = s.pm + 1 :=
  ar0822_start_streaming_go_state { s with pm := s.pm + 1 } fl

/-- Counterexample for C4: when the very first register write of the enable
sequence fails, the error is propagated and streaming stays off, but the
power reference taken by `pm_runtime_resume_and_get` is NOT released: the
usage count ends one higher than before the call. -/
theorem claim_stream_error_power_counterexample :
    (ar0822_set_stream sensorProbed true fail_first_oracle).ret = -5 ∧
    (ar0822_set_stream sensorProbed true fail_first_oracle).dev.streaming
      = false ∧
    (ar0822_set_stream sensorProbed true fail_first_oracle).dev.pm =
      sensorProbed.pm + 1 ∧
    ¬((ar0822_set_stream sensorProbed true fail_first_oracle).dev.pm =
      sensorProbed.pm) := by
  refine ⟨by decide, by decide, by decide, by decide⟩

/-- Amended C4: a failing register write during the enable sequence aborts
the sequence with the error propagated and the streaming state still
Stopped, but the device remains powered: the power reference acquired at the
start of the sequence is not released. -/
theorem claim_stream_error_keeps_power (sensor : ar0822) (fl : Oracle)
    (hs : sensor.streaming = false)
    (hr : (ar0822_set_stream sensor true fl).ret ≠ 0) :
    (ar0822_set_stream sensor true fl).dev.streaming = false ∧
    (ar0822_set_stream sensor true fl).dev.pm = sensor.pm + 1 := by
  have hstate := ar0822_start_streaming_state sensor fl
  rcases hE : ar0822_start_streaming sensor fl with ⟨r, sv, log⟩
  rw [hE] at hstate
  by_cases h0 : r = 0
  · exfalso
    apply hr
    simp [ar0822_set_stream, hs, hE, h0]
  · have hres : ar0822_set_stream sensor true fl = ⟨r, sv, log⟩ := by
      simp [ar0822_set_stream, hs, hE, h0]
    rw [hres]
    exact ⟨hstate.1.trans hs, hstate.2⟩

/-- Witness for the amended C4: failing the fourth write of the enable
sequence on the 4K / 12-bit device leaves it stopped and still powered. -/
theorem claim_stream_error_keeps_power_witness :
    (ar0822_set_stream sensor4k12 true fail_fourth_oracle).dev.streaming
      = false ∧
    (ar0822_set_stream sensor4k12 true fail_fourth_oracle).dev.pm =
      sensor4k12.pm + 1 :=
  claim_stream_error_keeps_power sensor4k12 fail_fourth_oracle (by decide)
    (by decide)

/-- Counterexample for C1: the enable sequence has no frame-length write
derived from the Timing.  On the probe-default device whose user raised
VBLANK to the in-range value 2000 while stopped, the enable succeeds and
writes FRAME_LENGTH_LINES = height + VBLANK = 3080; no write of the
Timing's frame_length_lines_min (2712) to that register occurs anywhere in
the trace, so the claimed Timing-derived frame-length step does not exist
as stated. -/
theorem claim_start_sequence_order_counterexample :
    (ar0822_set_stream sensorVblankRaised true ok_oracle).ret = 0 ∧
    sensorVblankRaised.streaming = false ∧
    sensorVblankRaised.vblank.minimum ≤ sensorVblankRaised.vblank.val ∧
    sensorVblankRaised.vblank.val ≤ sensorVblankRaised.vblank.maximum ∧
    ((AR0822_REG_FRAME_LENGTH_LINES,
      (sensorVblankRaised.mode_format.height : Int) +
        sensorVblankRaised.vblank.val) ∈
      (ar0822_set_stream sensorVblankRaised true ok_oracle).writes) ∧
    ((AR0822_REG_FRAME_LENGTH_LINES,
      ((ar0822_get_timing sensorVblankRaised).frame_length_lines_min : Int)) ∉
      (ar0822_set_stream sensorVblankRaised true ok_oracle).writes) := by
  refine ⟨by decide, by decide, by decide, by decide, by decide, by decide⟩

/-- Amended C1: enabling streaming from the stopped state (with every write
succeeding) programs the device in this order: mode-select wake pulse, the
PLL register sequence, the op_word_clk_div write, the MIPI timing sequence
for the current bit depth, the common-initialization registers, the active
format's mode-specific register sequence, the serial-format registers, the
Timing-derived line-length write, the control re-application starting with
the frame-length write — whose value is height + current VBLANK, equal to
the Timing's frame_length_lines_min only when VBLANK sits at its mode
default — and, as the very last write, the mode-select register set to
streaming; every listed write precedes it. -/
theorem claim_start_sequence_order (sensor : ar0822)
    (hs : sensor.streaming = false) :
    (ar0822_set_stream sensor true ok_oracle).ret = 0 ∧
    (ar0822_set_stream sensor true ok_oracle).writes =
      [(AR0822_REG_MODE_SELECT, AR0822_MODE_SELECT_STREAM_ON),
       (AR0822_REG_MODE_SELECT, AR0822_MODE_SELECT_STREAM_OFF)]
      ++ sensor.pll_config.regs_pll
      ++ [(AR0822_REG_OP_WORD_CLK_DIV,
           Int.ofNat (ar0822_get_bit_depth sensor.mode_bit_depth / 2))]
      ++ sensor.pll_config.regsMipi sensor.mode_bit_depth
      ++ ar0822_regs_common
      ++ sensor.mode_format.reg_sequence
      ++ [(AR0822_REG_SERIAL_FORMAT,
           Int.ofNat (0x200 ||| sensor.num_data_lanes)),
          (AR0822_REG_DATA_FORMAT_BITS,
           Int.ofNat ((ar0822_get_bit_depth sensor.mode_bit_depth <<< 8) |||
             ar0822_get_bit_depth sensor.mode_bit_depth))]
      ++ [(AR0822_REG_LINE_LENGTH_PCK,
           Int.ofNat (ar0822_get_timing sensor).line_length_pck_min)]
      ++ [(AR0822_REG_FRAME_LENGTH_LINES,
           (sensor.mode_format.height : Int) + sensor.vblank.val)]
      ++ ar0822_ctrl_setup_tail sensor
      ++ [(AR0822_REG_MODE_SELECT, AR0822_MODE_SELECT_STREAM_ON)] := by
  constructor
  · simp [ar0822_set_stream, hs, ar0822_start_streaming,
      ar0822_start_streaming_go, ar0822_config_pll,
      ar0822_config_serial_format, ar0822_ctrl_handler_setup,
      ar0822_ctrl_handler_setup_go, cci_write, ok_oracle,
      cci_multi_reg_write_ok]
  · simp only [ar0822_set_stream, hs, ar0822_start_streaming,
      ar0822_start_streaming_go, ar0822_config_pll,
      ar0822_config_serial_format, ar0822_ctrl_handler_setup,
      ar0822_ctrl_handler_setup_go, cci_write, ok_oracle,
      cci_multi_reg_write_ok, ar0822_ctrl_setup_tail,
      ar0822_adjust_exposure_range, v4l2_ctrl_modify_range,
      ar0822_get_timing]
    simp [List.append_assoc, ar0822_get_timing, ar0822_orientation]

/-- Witness for the amended C1: on the probe-default device the enable
sequence succeeds. -/
theorem claim_start_sequence_order_witness :
    (ar0822_set_stream sensorProbed true ok_oracle).ret = 0 :=
  (claim_start_sequence_order sensorProbed (by decide)).1
